import Mathlib

/-!
Shallow embedding of the context-management core of the glium repository:
`src/context/mod.rs` (Context construction/teardown, `check_gl_compatibility`,
the debug callback) and `src/sampler_object.rs` (SamplerObject, `get_sampler`).

Native GL calls are modelled as an explicit trace of events; the mutable
`GLState` is passed and returned explicitly.  Floating-point anisotropy limits
are modelled as rationals (only comparison and selection happen on them).
-/

/- ---------------------------------------------------------------- -/
/- GL enum constants (values of the external `gl` crate bindings).   -/
/- ---------------------------------------------------------------- -/

def TEXTURE_MAG_FILTER : Nat := 0x2800

def TEXTURE_MIN_FILTER : Nat := 0x2801

def TEXTURE_WRAP_S : Nat := 0x2802

def TEXTURE_WRAP_T : Nat := 0x2803

def TEXTURE_WRAP_R : Nat := 0x8072

def TEXTURE_MAX_ANISOTROPY_EXT : Nat := 0x84FE

def DEBUG_OUTPUT : Nat := 0x92E0

def DEBUG_SEVERITY_HIGH : Nat := 0x9146

def DEBUG_SEVERITY_MEDIUM : Nat := 0x9147

def DEBUG_TYPE_ERROR : Nat := 0x824C

def DEBUG_TYPE_DEPRECATED_BEHAVIOR : Nat := 0x824D

def DEBUG_TYPE_UNDEFINED_BEHAVIOR : Nat := 0x824E

def DEBUG_TYPE_PORTABILITY : Nat := 0x824F

/- ---------------------------------------------------------------- -/
/- Version (version.rs)                                              -/
/- ---------------------------------------------------------------- -/

/-- The API kind of a GL version (`version::Api`). -/
inductive Api
  | gl
  | glEs
deriving DecidableEq, Repr

/-- A GL version: api kind, major, minor (`version::Version`). -/
structure GlVersion where
  api : Api
  major : Nat
  minor : Nat
deriving DecidableEq, Repr

/-- Modelled from the spec: `version.rs` is not under `src/`.  Per spec §3,
comparisons are kind-qualified: a version is `>=` a bound only when the api
kinds match and (major, minor) is lexicographically at least the bound. -/
def versionGe (a b : GlVersion) : Bool :=
  a.api == b.api && (a.major > b.major || (a.major == b.major && a.minor >= b.minor))

/-- Modelled from the spec: kind-qualified strict order (see `versionGe`). -/
def versionLt (a b : GlVersion) : Bool :=
  a.api == b.api && (a.major < b.major || (a.major == b.major && a.minor < b.minor))

theorem versionGe_not_lt (a b : GlVersion) (h : versionGe a b = true) :
    versionLt a b = false := by
  unfold versionGe at h
  unfold versionLt
  rcases a with ⟨aa, am, an⟩
  rcases b with ⟨ba, bm, bn⟩
  simp only [Bool.and_eq_true, Bool.or_eq_true, beq_iff_eq, decide_eq_true_eq] at h
  simp only [Bool.and_eq_false_iff, Bool.or_eq_false_iff, beq_eq_false_iff_ne,
    decide_eq_false_iff_not]
  rcases h with ⟨hapi, h2⟩
  right
  constructor
  · omega
  · omega

/- ---------------------------------------------------------------- -/
/- ExtensionsList (context/extensions.rs)                            -/
/- ---------------------------------------------------------------- -/

/-- Modelled from the spec: `context/extensions.rs` is not under `src/`; the
fields are the boolean extension flags read by `context/mod.rs` and
`sampler_object.rs`. -/
structure ExtensionsList where
  gl_arb_vertex_buffer_object : Bool
  gl_arb_map_buffer_range : Bool
  gl_arb_shader_objects : Bool
  gl_arb_vertex_shader : Bool
  gl_arb_fragment_shader : Bool
  gl_ext_framebuffer_object : Bool
  gl_ext_framebuffer_blit : Bool
  gl_arb_vertex_array_object : Bool
  gl_apple_vertex_array_object : Bool
  gl_oes_vertex_array_object : Bool
  gl_arb_uniform_buffer_object : Bool
  gl_arb_sync : Bool
  gl_arb_buffer_storage : Bool
  gl_arb_get_programy_binary : Bool
  gl_arb_tessellation_shader : Bool
  gl_arb_instanced_arrays : Bool
  gl_ext_texture_integer : Bool
  gl_arb_depth_texture : Bool
  gl_ext_packed_depth_stencil : Bool
  gl_khr_debug : Bool
  gl_arb_debug_output : Bool
  gl_arb_sampler_objects : Bool
deriving DecidableEq, Repr

/-- An `ExtensionsList` with every extension absent. -/
def noExtensions : ExtensionsList :=
  ⟨false, false, false, false, false, false, false, false, false, false, false,
   false, false, false, false, false, false, false, false, false, false, false⟩

/- ---------------------------------------------------------------- -/
/- Capabilities (context/capabilities.rs)                            -/
/- ---------------------------------------------------------------- -/

/-- Modelled from the spec: `context/capabilities.rs` is not under `src/`.
Only the field used by `sampler_object.rs` is modelled; the float limit is
modelled as a rational. -/
structure Capabilities where
  max_texture_max_anisotropy : Option ℚ
deriving DecidableEq

/- ---------------------------------------------------------------- -/
/- GLState (context/state.rs)                                        -/
/- ---------------------------------------------------------------- -/

/-- Modelled from the spec: `context/state.rs` is not under `src/`.  The two
fields are the ones `context/mod.rs` reads and writes; per spec §3 the
default is the never-set state. -/
structure GLState where
  enabled_debug_output : Option Bool
  enabled_debug_output_synchronous : Bool
deriving DecidableEq, Repr

/-- Modelled from the spec: the never-set default of `GLState`. -/
def GLState.default : GLState :=
  { enabled_debug_output := none, enabled_debug_output_synchronous := false }

/- ---------------------------------------------------------------- -/
/- SamplerBehavior (uniforms.rs) and SamplerObject                   -/
/- ---------------------------------------------------------------- -/

/-- Modelled from the spec: `uniforms.rs` is not under `src/`.  The descriptor
per spec §3: three wrap-mode axes, minify filter, magnify filter, requested
anisotropy; wrap/filter modes are carried as their GL enum values (the external
`to_glenum` is the identity on this encoding); equality is exact field-wise. -/
structure SamplerBehavior where
  wrap_function : Nat × Nat × Nat
  minify_filter : Nat
  magnify_filter : Nat
  max_anisotropy : Nat
deriving DecidableEq, Repr

/-- An OpenGL sampler object (`sampler_object.rs`): native id + destroyed
flag. -/
structure SamplerObject where
  id : Nat
  destroyed : Bool
deriving DecidableEq, Repr

/-- A native GL call issued by the embedded code, recorded in a trace. -/
inductive GlCall
  | genSamplers
  | samplerParameteri (pname : Nat) (value : Nat)
  | samplerParameterf (pname : Nat) (value : ℚ)
  | deleteSamplers (id : Nat)
  | disable (cap : Nat)
  | debugMessageCallbackARBNull
  | finish
deriving DecidableEq

/-- The borrow aggregate (`CommandContext` in `context/mod.rs`) restricted to
the immutable parts the sampler code reads. -/
structure CommandContext where
  version : GlVersion
  extensions : ExtensionsList
  capabilities : Capabilities
deriving DecidableEq

/-- The unconditional parameter calls of `SamplerObject::new`
(`sampler_object.rs` lines 27-44), in source order: GenSamplers, wrap-S,
wrap-T, wrap-R, minify filter, magnify filter. -/
def samplerBaseCalls (behavior : SamplerBehavior) : List GlCall :=
  [GlCall.genSamplers,
   GlCall.samplerParameteri TEXTURE_WRAP_S behavior.wrap_function.1,
   GlCall.samplerParameteri TEXTURE_WRAP_T behavior.wrap_function.2.1,
   GlCall.samplerParameteri TEXTURE_WRAP_R behavior.wrap_function.2.2,
   GlCall.samplerParameteri TEXTURE_MIN_FILTER behavior.minify_filter,
   GlCall.samplerParameteri TEXTURE_MAG_FILTER behavior.magnify_filter]

/-- The conditional anisotropy parameter call of `SamplerObject::new`
(`sampler_object.rs` lines 46-54): only when the capability reports a maximum,
the requested value clamped to that maximum. -/
def samplerAnisoCalls (ctxt : CommandContext) (behavior : SamplerBehavior) : List GlCall :=
  match ctxt.capabilities.max_texture_max_anisotropy with
  | some max_value =>
    let value := if (behavior.max_anisotropy : ℚ) > max_value then max_value
      else (behavior.max_anisotropy : ℚ)
    [GlCall.samplerParameterf TEXTURE_MAX_ANISOTROPY_EXT value]
  | none => []

/-- `SamplerObject::new` (`sampler_object.rs` lines 22-61).  `none` models the
`assert!` failing (sampler objects unsupported); otherwise the new object
(whose id is the freshly generated `nextId`) together with the trace of native
calls: the base parameter calls, then the conditional anisotropy call. -/
def SamplerObject.new (nextId : Nat) (ctxt : CommandContext) (behavior : SamplerBehavior) :
    Option (SamplerObject × List GlCall) :=
  if versionGe ctxt.version ⟨Api.gl, 3, 2⟩ || ctxt.extensions.gl_arb_sampler_objects then
    some ({ id := nextId, destroyed := false },
      samplerBaseCalls behavior ++ samplerAnisoCalls ctxt behavior)
  else
    none

/-- `SamplerObject::destroy` (`sampler_object.rs` lines 64-70): sets the
destroyed flag and issues the native deletion call. -/
def SamplerObject.destroy (s : SamplerObject) : SamplerObject × GlCall :=
  ({ s with destroyed := true }, GlCall.deleteSamplers s.id)

/-- The `Drop` impl for `SamplerObject` (`sampler_object.rs` lines 81-85)
asserts the destroyed flag; this is whether that assertion passes. -/
def SamplerObject.dropAssertPasses (s : SamplerObject) : Bool :=
  s.destroyed

/-- The draw-error type (`DrawError` variant used by `get_sampler`). -/
inductive DrawError
  | samplersNotSupported
deriving DecidableEq, Repr

/-- `get_sampler` (`sampler_object.rs` lines 89-110).  The sampler cache is an
association list (the `HashMap` keyed by descriptor).  Result: `none` models a
panic inside `SamplerObject::new`; otherwise (result, updated cache, trace of
native calls, next fresh native id). -/
def get_sampler (nextId : Nat) (ctxt : CommandContext)
    (samplers : List (SamplerBehavior × SamplerObject)) (behavior : SamplerBehavior) :
    Option (Except DrawError Nat × List (SamplerBehavior × SamplerObject) × List GlCall × Nat) :=
  if versionLt ctxt.version ⟨Api.gl, 3, 2⟩ && !ctxt.extensions.gl_arb_sampler_objects then
    some (Except.error DrawError.samplersNotSupported, samplers, [], nextId)
  else
    match samplers.lookup behavior with
    | some obj => some (Except.ok obj.id, samplers, [], nextId)
    | none =>
      (SamplerObject.new nextId ctxt behavior).map fun p =>
        (Except.ok p.1.id, (behavior, p.1) :: samplers, p.2, nextId + 1)

/-- Two successive `get_sampler` calls with the same descriptor, threading the
cache and the fresh-id supply; returns both results and the combined trace. -/
def get_sampler_twice (nextId : Nat) (ctxt : CommandContext)
    (samplers : List (SamplerBehavior × SamplerObject)) (behavior : SamplerBehavior) :
    Option (Except DrawError Nat × Except DrawError Nat × List GlCall) :=
  match get_sampler nextId ctxt samplers behavior with
  | some (r1, cache1, calls1, nid1) =>
    match get_sampler nid1 ctxt cache1 behavior with
    | some (r2, _, calls2, _) => some (r1, r2, calls1 ++ calls2)
    | none => none
  | none => none

/-- Number of native allocation calls (`GenSamplers`) in the combined trace of
a `get_sampler_twice` run. -/
def twiceAllocCount
    (o : Option (Except DrawError Nat × Except DrawError Nat × List GlCall)) : Nat :=
  match o with
  | some (_, _, calls) => calls.count GlCall.genSamplers
  | none => 0

/-- Whether a call sets the anisotropy sampler parameter. -/
def isAnisoCall : GlCall → Bool
  | GlCall.samplerParameterf pname _ => pname == TEXTURE_MAX_ANISOTROPY_EXT
  | _ => false

/- ---------------------------------------------------------------- -/
/- Context (context/mod.rs)                                          -/
/- ---------------------------------------------------------------- -/

/-- The error type of context construction (`GliumCreationError`); the variant
used by `check_gl_compatibility` carries the joined diagnostics. -/
inductive GliumCreationError
  | incompatibleOpenGl (msg : String)
deriving DecidableEq

/-- The `Context` of `context/mod.rs`, restricted to the fields the embedded
operations touch.  The backend is an opaque id; `backend_is_current` models
`backend.is_current()`.  The framebuffer container and vertex-attribute system
are external collaborators invoked only through their cleanup calls, so only
those calls appear (in the teardown trace). -/
structure Context where
  version : GlVersion
  extensions : ExtensionsList
  capabilities : Capabilities
  state : GLState
  backend : Nat
  backend_is_current : Bool
  check_current_context : Bool
  samplers : List (SamplerBehavior × SamplerObject)

/-- An event of the teardown / rebuild traces: rebinding the backend, the two
collaborator cleanup calls, or a native GL call. -/
inductive DropEvent
  | makeCurrent
  | fboCleanup
  | vaoCleanup
  | glCall (c : GlCall)
deriving DecidableEq

/-- Whether an event is the tier-matched disable call of the debug bridge:
either `Disable(DEBUG_OUTPUT)` or unregistering via
`DebugMessageCallbackARB(null)`. -/
def isDisableDebug (e : DropEvent) : Bool :=
  e == DropEvent.glCall (GlCall.disable DEBUG_OUTPUT) ||
    e == DropEvent.glCall GlCall.debugMessageCallbackARBNull

/-- Whether an event is the pipeline finish call. -/
def isFinish (e : DropEvent) : Bool :=
  e == DropEvent.glCall GlCall.finish

/-- Whether an event is a native sampler deletion call. -/
def isDeleteSamplers (e : DropEvent) : Bool :=
  match e with
  | DropEvent.glCall (GlCall.deleteSamplers _) => true
  | _ => false

/-- The tier-dependent disable call of the teardown debug block
(`context/mod.rs` lines 220-225): `Disable(DEBUG_OUTPUT)` for the core/KHR
tier, `DebugMessageCallbackARB(null)` for the ARB tier, nothing otherwise. -/
def debugDisableCalls (c : Context) : List DropEvent :=
  if versionGe c.version ⟨Api.gl, 4, 5⟩ || c.extensions.gl_khr_debug then
    [DropEvent.glCall (GlCall.disable DEBUG_OUTPUT)]
  else if c.extensions.gl_arb_debug_output then
    [DropEvent.glCall GlCall.debugMessageCallbackARBNull]
  else
    []

/-- Whether some debug tier is available to the teardown block (the block can
issue an actual native disable call). -/
def debugTierAvailable (c : Context) : Bool :=
  versionGe c.version ⟨Api.gl, 4, 5⟩ || c.extensions.gl_khr_debug ||
    c.extensions.gl_arb_debug_output

/-- `impl Drop for Context` (`context/mod.rs` lines 187-232): rebinds the
backend when `check_current_context` demands it, hands the framebuffer
container and the vertex-attribute system their cleanup calls, drains the
sampler cache destroying each entry, and then — unless the mirrored state is
`Some(false)` — issues the tier-matched disable call, records the state as
disabled, and issues a pipeline finish.  Returns the event trace and the final
mirrored state. -/
def Context.drop (c : Context) : List DropEvent × GLState :=
  let pre := if c.check_current_context && !c.backend_is_current then
    [DropEvent.makeCurrent] else []
  let destroys := c.samplers.map fun p => DropEvent.glCall (p.2.destroy).2
  if c.state.enabled_debug_output != some false then
    (pre ++ [DropEvent.fboCleanup, DropEvent.vaoCleanup] ++ destroys ++
       debugDisableCalls c ++ [DropEvent.glCall GlCall.finish],
     { c.state with enabled_debug_output := some false })
  else
    (pre ++ [DropEvent.fboCleanup, DropEvent.vaoCleanup] ++ destroys, c.state)

/-- `Context::rebuild` (`context/mod.rs` lines 145-156): binds the new backend
as current, resets the mirrored state to its default, replaces the stored
backend; version, extensions, capabilities and the resource caches are not
re-probed or touched.  Returns the updated context, the trace, and the
(always-`Ok`) result. -/
def Context.rebuild (c : Context) (new_backend : Nat) :
    Context × List DropEvent × Except GliumCreationError Unit :=
  ({ c with
      state := GLState.default,
      backend := new_backend,
      backend_is_current := true },
   [DropEvent.makeCurrent],
   Except.ok ())

/- ---------------------------------------------------------------- -/
/- check_gl_compatibility (context/mod.rs lines 234-342)             -/
/- ---------------------------------------------------------------- -/

/-- The compile-time feature selection (`cfg!(feature = ...)`) gating the
optional checks of `check_gl_compatibility`. -/
structure Features where
  gl_uniform_blocks : Bool
  gl_sync : Bool
  gl_persistent_mapping : Bool
  gl_program_binary : Bool
  gl_tessellation : Bool
  gl_instancing : Bool
  gl_integral_textures : Bool
  gl_depth_textures : Bool
  gl_stencil_textures : Bool
  gl_texture_multisample : Bool
  gl_texture_multisample_array : Bool
deriving DecidableEq, Repr

/-- A `Features` value with every optional check disabled. -/
def featuresAllOff : Features :=
  ⟨false, false, false, false, false, false, false, false, false, false, false⟩

/-- The ordered diagnostic list built by `check_gl_compatibility`
(`context/mod.rs` lines 234-335): each check appends its message
independently; no check short-circuits the others. -/
def compat_messages (f : Features) (version : GlVersion) (ext : ExtensionsList) :
    List String :=
  (if !versionGe version ⟨Api.gl, 1, 5⟩ && !versionGe version ⟨Api.glEs, 2, 0⟩ &&
      (!ext.gl_arb_vertex_buffer_object || !ext.gl_arb_map_buffer_range) then
    ["OpenGL implementation doesn\x27t support buffer objects"] else []) ++
  (if !versionGe version ⟨Api.gl, 2, 0⟩ && !versionGe version ⟨Api.glEs, 2, 0⟩ &&
      (!ext.gl_arb_shader_objects || !ext.gl_arb_vertex_shader ||
        !ext.gl_arb_fragment_shader) then
    ["OpenGL implementation doesn\x27t support vertex/fragment shaders"] else []) ++
  (if !ext.gl_ext_framebuffer_object && !versionGe version ⟨Api.gl, 3, 0⟩ &&
      !versionGe version ⟨Api.glEs, 2, 0⟩ then
    ["OpenGL implementation doesn\x27t support framebuffers"] else []) ++
  (if !ext.gl_ext_framebuffer_blit && !versionGe version ⟨Api.gl, 3, 0⟩ &&
      !versionGe version ⟨Api.glEs, 2, 0⟩ then
    ["OpenGL implementation doesn\x27t support blitting framebuffers"] else []) ++
  (if !ext.gl_arb_vertex_array_object && !ext.gl_apple_vertex_array_object &&
      !ext.gl_oes_vertex_array_object && !versionGe version ⟨Api.gl, 3, 0⟩ &&
      !versionGe version ⟨Api.glEs, 3, 0⟩ then
    ["OpenGL implementation doesn\x27t support vertex array objects"] else []) ++
  (if f.gl_uniform_blocks && !versionGe version ⟨Api.gl, 3, 1⟩ &&
      !ext.gl_arb_uniform_buffer_object then
    ["OpenGL implementation doesn\x27t support uniform blocks"] else []) ++
  (if f.gl_sync && !versionGe version ⟨Api.gl, 3, 2⟩ &&
      !versionGe version ⟨Api.glEs, 3, 0⟩ && !ext.gl_arb_sync then
    ["OpenGL implementation doesn\x27t support synchronization objects"] else []) ++
  (if f.gl_persistent_mapping && !versionGe version ⟨Api.gl, 4, 4⟩ &&
      !ext.gl_arb_buffer_storage then
    ["OpenGL implementation doesn\x27t support persistent mapping"] else []) ++
  (if f.gl_program_binary && !versionGe version ⟨Api.gl, 4, 1⟩ &&
      !ext.gl_arb_get_programy_binary then
    ["OpenGL implementation doesn\x27t support program binary"] else []) ++
  (if f.gl_tessellation && !versionGe version ⟨Api.gl, 4, 0⟩ &&
      !ext.gl_arb_tessellation_shader then
    ["OpenGL implementation doesn\x27t support tessellation"] else []) ++
  (if f.gl_instancing && !versionGe version ⟨Api.gl, 3, 3⟩ &&
      !ext.gl_arb_instanced_arrays then
    ["OpenGL implementation doesn\x27t support instancing"] else []) ++
  (if f.gl_integral_textures && !versionGe version ⟨Api.gl, 3, 0⟩ &&
      !ext.gl_ext_texture_integer then
    ["OpenGL implementation doesn\x27t support integral textures"] else []) ++
  (if f.gl_depth_textures && !versionGe version ⟨Api.gl, 3, 0⟩ &&
      (!ext.gl_arb_depth_texture || !ext.gl_ext_packed_depth_stencil) then
    ["OpenGL implementation doesn\x27t support depth or depth-stencil textures"] else []) ++
  (if f.gl_stencil_textures && !versionGe version ⟨Api.gl, 3, 0⟩ then
    ["OpenGL implementation doesn\x27t support stencil textures"] else []) ++
  (if f.gl_texture_multisample && !versionGe version ⟨Api.gl, 3, 2⟩ then
    ["OpenGL implementation doesn\x27t support multisample textures"] else []) ++
  (if f.gl_texture_multisample_array && !versionGe version ⟨Api.gl, 3, 2⟩ then
    ["OpenGL implementation doesn\x27t support arrays of multisample textures"] else [])

/-- `check_gl_compatibility` (`context/mod.rs` lines 234-342): succeeds when
no diagnostic was produced, otherwise fails with every diagnostic joined by a
newline separator (`result.connect("\n")`). -/
def check_gl_compatibility (f : Features) (version : GlVersion) (ext : ExtensionsList) :
    Except GliumCreationError Unit :=
  let result := compat_messages f version ext
  if result.length = 0 then
    Except.ok ()
  else
    Except.error (GliumCreationError.incompatibleOpenGl (String.intercalate "\n" result))

/- ---------------------------------------------------------------- -/
/- The debug trampoline (context/mod.rs lines 354-375)               -/
/- ---------------------------------------------------------------- -/

/-- `callback_wrapper` (`context/mod.rs` lines 354-375): whether the debug
trampoline fires its fatal diagnostic (panics), as a function of the message
parameters and the value read from the `SharedDebugOutput.report_errors`
flag.  `source` and `id` are received but never inspected. -/
def callback_wrapper_fires (source ty id severity : Nat) (report_errors : Bool) : Bool :=
  if (severity == DEBUG_SEVERITY_HIGH || severity == DEBUG_SEVERITY_MEDIUM) &&
     (ty == DEBUG_TYPE_ERROR || ty == DEBUG_TYPE_UNDEFINED_BEHAVIOR ||
       ty == DEBUG_TYPE_PORTABILITY || ty == DEBUG_TYPE_DEPRECATED_BEHAVIOR) then
    if report_errors then true else false
  else
    false

/- ---------------------------------------------------------------- -/
/- Concrete instances used by witnesses and counterexamples          -/
/- ---------------------------------------------------------------- -/

/-- A sampler descriptor used in concrete evaluations (repeat wrap, nearest
filters, anisotropy 1). -/
def behavior0 : SamplerBehavior :=
  { wrap_function := (0x2901, 0x2901, 0x2901),
    minify_filter := 0x2600,
    magnify_filter := 0x2600,
    max_anisotropy := 1 }

/-- A command context below desktop 3.2 without the sampler extension. -/
def ctxtUnsupported : CommandContext :=
  { version := ⟨Api.gl, 3, 1⟩, extensions := noExtensions,
    capabilities := { max_texture_max_anisotropy := none } }

/-- A command context at desktop 3.2 (sampler objects supported), reporting no
anisotropy limit. -/
def ctxt6 : CommandContext :=
  { version := ⟨Api.gl, 3, 2⟩, extensions := noExtensions,
    capabilities := { max_texture_max_anisotropy := none } }

/-- A command context supporting sampler objects and reporting a maximum
anisotropy of 4. -/
def ctxt7 : CommandContext :=
  { version := ⟨Api.gl, 3, 2⟩, extensions := noExtensions,
    capabilities := { max_texture_max_anisotropy := some 4 } }

/-- The descriptor of `ctxt7` evaluations: requested anisotropy 8. -/
def behavior8 : SamplerBehavior :=
  { wrap_function := (0x2901, 0x2901, 0x2901),
    minify_filter := 0x2600,
    magnify_filter := 0x2600,
    max_anisotropy := 8 }

/- ---------------------------------------------------------------- -/
/- Helper lemmas on teardown traces                                  -/
/- ---------------------------------------------------------------- -/

theorem filter_finish_destroys (l : List (SamplerBehavior × SamplerObject)) :
    (l.map fun p => DropEvent.glCall (p.2.destroy).2).filter isFinish = [] := by
  induction l with
  | nil => rfl
  | cons a t ih => simpa [isFinish, SamplerObject.destroy] using ih

theorem filter_disable_destroys (l : List (SamplerBehavior × SamplerObject)) :
    (l.map fun p => DropEvent.glCall (p.2.destroy).2).filter isDisableDebug = [] := by
  induction l with
  | nil => rfl
  | cons a t ih => simpa [isDisableDebug, SamplerObject.destroy] using ih

theorem filter_delete_destroys (l : List (SamplerBehavior × SamplerObject)) :
    (l.map fun p => DropEvent.glCall (p.2.destroy).2).filter isDeleteSamplers =
      l.map fun p => DropEvent.glCall (p.2.destroy).2 := by
  induction l with
  | nil => rfl
  | cons a t ih => simpa [isDeleteSamplers, SamplerObject.destroy] using ih

theorem filter_finish_debugDisable (c : Context) :
    (debugDisableCalls c).filter isFinish = [] := by
  unfold debugDisableCalls
  split
  · rfl
  · split <;> rfl

theorem filter_disable_debugDisable (c : Context) :
    (debugDisableCalls c).filter isDisableDebug = debugDisableCalls c := by
  unfold debugDisableCalls
  split
  · rfl
  · split <;> rfl

theorem filter_delete_debugDisable (c : Context) :
    (debugDisableCalls c).filter isDeleteSamplers = [] := by
  unfold debugDisableCalls
  split
  · rfl
  · split <;> rfl

/- ---------------------------------------------------------------- -/
/- C4: the debug trampoline fires iff severity, type and flag allow  -/
/- ---------------------------------------------------------------- -/

/-- C4: for every invocation of the debug trampoline `callback_wrapper` with
(source, type, id, severity) and every state of the shared debug flag, the
fatal diagnostic fires if and only if the severity is HIGH or MEDIUM, the type
is one of ERROR, UNDEFINED_BEHAVIOR, PORTABILITY, DEPRECATED_BEHAVIOR, and the
flag reads true; in every other case the trampoline returns without effect. -/
theorem callback_wrapper_fires_iff (source ty id severity : Nat) (report_errors : Bool) :
    callback_wrapper_fires source ty id severity report_errors = true ↔
      ((severity = DEBUG_SEVERITY_HIGH ∨ severity = DEBUG_SEVERITY_MEDIUM) ∧
        (ty = DEBUG_TYPE_ERROR ∨ ty = DEBUG_TYPE_UNDEFINED_BEHAVIOR ∨
          ty = DEBUG_TYPE_PORTABILITY ∨ ty = DEBUG_TYPE_DEPRECATED_BEHAVIOR) ∧
        report_errors = true) := by
  unfold callback_wrapper_fires
  rcases report_errors <;>
    simp [Bool.and_eq_true, Bool.or_eq_true, beq_iff_eq] <;>
    tauto

/- ---------------------------------------------------------------- -/
/- C8: destroy-before-drop invariant of SamplerObject                -/
/- ---------------------------------------------------------------- -/

/-- C8: for every `SamplerObject`, destroying it and then letting the value
reach its finalizer never trips the destroyed-flag assertion, while dropping
an object that has not been destroyed always trips the assertion. -/
theorem sampler_destroy_drop_assert (s : SamplerObject) :
    SamplerObject.dropAssertPasses (s.destroy).1 = true ∧
      (s.destroyed = false → SamplerObject.dropAssertPasses s = false) := by
  exact ⟨rfl, fun h => h⟩

/-- Witness for C8 at the concrete object with id 7, not yet destroyed. -/
theorem sampler_destroy_drop_assert_witness :
    SamplerObject.dropAssertPasses ((SamplerObject.mk 7 false).destroy).1 = true ∧
      SamplerObject.dropAssertPasses (SamplerObject.mk 7 false) = false :=
  ⟨(sampler_destroy_drop_assert ⟨7, false⟩).1,
   (sampler_destroy_drop_assert ⟨7, false⟩).2 rfl⟩

/- ---------------------------------------------------------------- -/
/- C9 and C10: rebuild                                               -/
/- ---------------------------------------------------------------- -/

/-- C9: for every backend, `rebuild` binds the new backend as current,
replaces the stored backend, and resets the mirrored state to its default,
while leaving the version, extensions, capabilities and the sampler cache
unchanged (no re-probing against the new backend). -/
theorem context_rebuild_effects (c : Context) (new_backend : Nat) :
    (c.rebuild new_backend).1.version = c.version ∧
      (c.rebuild new_backend).1.extensions = c.extensions ∧
      (c.rebuild new_backend).1.capabilities = c.capabilities ∧
      (c.rebuild new_backend).1.samplers = c.samplers ∧
      (c.rebuild new_backend).1.state = GLState.default ∧
      (c.rebuild new_backend).1.backend = new_backend ∧
      (c.rebuild new_backend).1.backend_is_current = true ∧
      (c.rebuild new_backend).2.1 = [DropEvent.makeCurrent] :=
  ⟨rfl, rfl, rfl, rfl, rfl, rfl, rfl, rfl⟩

/-- C10: `rebuild` never fails: for every context and backend it returns
`Ok(())`, although its type admits a creation error. -/
theorem context_rebuild_never_fails (c : Context) (new_backend : Nat) :
    (c.rebuild new_backend).2.2 = Except.ok () :=
  rfl

/- ---------------------------------------------------------------- -/
/- C3: check_gl_compatibility                                        -/
/- ---------------------------------------------------------------- -/

/-- C3: `check_gl_compatibility` never short-circuits — it succeeds exactly
when the ordered diagnostic list is empty, and otherwise fails with an
`IncompatibleOpenGl` error carrying every message joined with a newline
separator; in particular, with a version meeting no threshold, no extensions
and all optional checks disabled, the result is the error carrying exactly
the five always-enforced diagnostics in declaration order. -/
theorem check_gl_compatibility_correct :
    (∀ (f : Features) (v : GlVersion) (e : ExtensionsList),
      (check_gl_compatibility f v e = Except.ok () ↔ compat_messages f v e = []) ∧
      (compat_messages f v e ≠ [] →
        check_gl_compatibility f v e =
          Except.error (GliumCreationError.incompatibleOpenGl
            (String.intercalate "\n" (compat_messages f v e))))) ∧
    (∀ v : GlVersion,
      versionGe v ⟨Api.gl, 1, 5⟩ = false →
      versionGe v ⟨Api.gl, 2, 0⟩ = false →
      versionGe v ⟨Api.gl, 3, 0⟩ = false →
      versionGe v ⟨Api.glEs, 2, 0⟩ = false →
      versionGe v ⟨Api.glEs, 3, 0⟩ = false →
      compat_messages featuresAllOff v noExtensions =
        ["OpenGL implementation doesn\x27t support buffer objects",
         "OpenGL implementation doesn\x27t support vertex/fragment shaders",
         "OpenGL implementation doesn\x27t support framebuffers",
         "OpenGL implementation doesn\x27t support blitting framebuffers",
         "OpenGL implementation doesn\x27t support vertex array objects"] ∧
      check_gl_compatibility featuresAllOff v noExtensions =
        Except.error (GliumCreationError.incompatibleOpenGl
          (String.intercalate "\n"
            ["OpenGL implementation doesn\x27t support buffer objects",
             "OpenGL implementation doesn\x27t support vertex/fragment shaders",
             "OpenGL implementation doesn\x27t support framebuffers",
             "OpenGL implementation doesn\x27t support blitting framebuffers",
             "OpenGL implementation doesn\x27t support vertex array objects"]))) := by
  constructor
  · intro f v e
    constructor
    · constructor
      · intro h
        by_contra hne
        have hlen : (compat_messages f v e).length ≠ 0 := by
          simpa [List.length_eq_zero] using hne
        simp [check_gl_compatibility, hlen] at h
      · intro h
        simp [check_gl_compatibility, h]
    · intro h
      have hlen : (compat_messages f v e).length ≠ 0 := by
        simpa [List.length_eq_zero] using h
      simp [check_gl_compatibility, hlen]
  · intro v h15 h20 h30 hEs20 hEs30
    have hmsg : compat_messages featuresAllOff v noExtensions =
        ["OpenGL implementation doesn\x27t support buffer objects",
         "OpenGL implementation doesn\x27t support vertex/fragment shaders",
         "OpenGL implementation doesn\x27t support framebuffers",
         "OpenGL implementation doesn\x27t support blitting framebuffers",
         "OpenGL implementation doesn\x27t support vertex array objects"] := by
      unfold compat_messages
      simp [featuresAllOff, noExtensions, h15, h20, h30, hEs20, hEs30]
    refine ⟨hmsg, ?_⟩
    simp [check_gl_compatibility, hmsg]

/-- Witness for C3 at the concrete version desktop 1.0 (meeting no
threshold). -/
theorem check_gl_compatibility_correct_witness :
    compat_messages featuresAllOff ⟨Api.gl, 1, 0⟩ noExtensions =
      ["OpenGL implementation doesn\x27t support buffer objects",
       "OpenGL implementation doesn\x27t support vertex/fragment shaders",
       "OpenGL implementation doesn\x27t support framebuffers",
       "OpenGL implementation doesn\x27t support blitting framebuffers",
       "OpenGL implementation doesn\x27t support vertex array objects"] ∧
    check_gl_compatibility featuresAllOff ⟨Api.gl, 1, 0⟩ noExtensions =
      Except.error (GliumCreationError.incompatibleOpenGl
        (String.intercalate "\n"
          ["OpenGL implementation doesn\x27t support buffer objects",
           "OpenGL implementation doesn\x27t support vertex/fragment shaders",
           "OpenGL implementation doesn\x27t support framebuffers",
           "OpenGL implementation doesn\x27t support blitting framebuffers",
           "OpenGL implementation doesn\x27t support vertex array objects"])) :=
  check_gl_compatibility_correct.2 ⟨Api.gl, 1, 0⟩ (by decide) (by decide) (by decide)
    (by decide) (by decide)

/- ---------------------------------------------------------------- -/
/- C5: get_sampler on an unsupported context                         -/
/- ---------------------------------------------------------------- -/

/-- C5: for every context whose version is below desktop 3.2 and whose
sampler-object extension is absent, `get_sampler` returns the
not-supported error, performs zero native calls, and leaves the sampler
cache unchanged. -/
theorem get_sampler_not_supported (nextId : Nat) (ctxt : CommandContext)
    (samplers : List (SamplerBehavior × SamplerObject)) (behavior : SamplerBehavior)
    (hv : versionLt ctxt.version ⟨Api.gl, 3, 2⟩ = true)
    (he : ctxt.extensions.gl_arb_sampler_objects = false) :
    get_sampler nextId ctxt samplers behavior =
      some (Except.error DrawError.samplersNotSupported, samplers, [], nextId) := by
  unfold get_sampler
  simp [hv, he]

/-- Witness for C5 at the concrete context (desktop 3.1, no extensions). -/
theorem get_sampler_not_supported_witness :
    get_sampler 0 ctxtUnsupported [] behavior0 =
      some (Except.error DrawError.samplersNotSupported, [], [], 0) :=
  get_sampler_not_supported 0 ctxtUnsupported [] behavior0 (by decide) rfl

/- ---------------------------------------------------------------- -/
/- Helper lemmas on sampler call traces                              -/
/- ---------------------------------------------------------------- -/

theorem count_genSamplers_base (behavior : SamplerBehavior) :
    (samplerBaseCalls behavior).count GlCall.genSamplers = 1 := by
  simp [samplerBaseCalls, List.count_cons]

theorem count_genSamplers_aniso (ctxt : CommandContext) (behavior : SamplerBehavior) :
    (samplerAnisoCalls ctxt behavior).count GlCall.genSamplers = 0 := by
  unfold samplerAnisoCalls
  rcases ctxt.capabilities.max_texture_max_anisotropy with _ | m
  · rfl
  · simp [List.count_cons]

theorem filter_aniso_base (behavior : SamplerBehavior) :
    (samplerBaseCalls behavior).filter isAnisoCall = [] := by
  simp [samplerBaseCalls, isAnisoCall]

theorem guard_false_of_supported (ctxt : CommandContext)
    (hsupp : (versionGe ctxt.version ⟨Api.gl, 3, 2⟩ ||
      ctxt.extensions.gl_arb_sampler_objects) = true) :
    (versionLt ctxt.version ⟨Api.gl, 3, 2⟩ &&
      !ctxt.extensions.gl_arb_sampler_objects) = false := by
  cases hge : versionGe ctxt.version ⟨Api.gl, 3, 2⟩ with
  | true => simp [versionGe_not_lt _ _ hge]
  | false =>
    rw [hge] at hsupp
    simp only [Bool.false_or] at hsupp
    simp [hsupp]

/- ---------------------------------------------------------------- -/
/- C6 (amended): cache-hit discipline of get_sampler                 -/
/- ---------------------------------------------------------------- -/

/-- C6 (amended): in every context where sampler objects are supported and
whose cache does not yet hold the descriptor, calling `get_sampler` twice with
the identical descriptor returns the same resource id both times and performs
exactly one native allocation call in total; the second call is a cache hit
with zero native calls and leaves the cache unchanged. -/
theorem get_sampler_twice_one_alloc (nextId : Nat) (ctxt : CommandContext)
    (samplers : List (SamplerBehavior × SamplerObject)) (behavior : SamplerBehavior)
    (hsupp : (versionGe ctxt.version ⟨Api.gl, 3, 2⟩ ||
      ctxt.extensions.gl_arb_sampler_objects) = true)
    (hmiss : samplers.lookup behavior = none) :
    ∃ cache1 calls1,
      get_sampler nextId ctxt samplers behavior =
        some (Except.ok nextId, cache1, calls1, nextId + 1) ∧
      calls1.count GlCall.genSamplers = 1 ∧
      get_sampler (nextId + 1) ctxt cache1 behavior =
        some (Except.ok nextId, cache1, [], nextId + 1) ∧
      twiceAllocCount (get_sampler_twice nextId ctxt samplers behavior) = 1 := by
  have hguard := guard_false_of_supported ctxt hsupp
  have h1 : get_sampler nextId ctxt samplers behavior =
      some (Except.ok nextId,
        (behavior, ({ id := nextId, destroyed := false } : SamplerObject)) :: samplers,
        samplerBaseCalls behavior ++ samplerAnisoCalls ctxt behavior, nextId + 1) := by
    unfold get_sampler
    rw [hguard]
    simp [hmiss, SamplerObject.new, hsupp]
  have h2 : get_sampler (nextId + 1) ctxt
      ((behavior, ({ id := nextId, destroyed := false } : SamplerObject)) :: samplers)
      behavior =
      some (Except.ok nextId,
        (behavior, ({ id := nextId, destroyed := false } : SamplerObject)) :: samplers,
        [], nextId + 1) := by
    unfold get_sampler
    rw [hguard]
    simp [List.lookup]
  refine ⟨_, _, h1, ?_, h2, ?_⟩
  · simp [List.count_append, count_genSamplers_base, count_genSamplers_aniso]
  · simp [get_sampler_twice, h1, h2, twiceAllocCount, List.count_append,
      count_genSamplers_base, count_genSamplers_aniso]

/-- Witness for C6 (amended) at the concrete supported context `ctxt6` with an
empty cache. -/
theorem get_sampler_twice_one_alloc_witness :
    ∃ cache1 calls1,
      get_sampler 0 ctxt6 [] behavior0 = some (Except.ok 0, cache1, calls1, 1) ∧
      calls1.count GlCall.genSamplers = 1 ∧
      get_sampler 1 ctxt6 cache1 behavior0 = some (Except.ok 0, cache1, [], 1) ∧
      twiceAllocCount (get_sampler_twice 0 ctxt6 [] behavior0) = 1 :=
  get_sampler_twice_one_alloc 0 ctxt6 [] behavior0 (by decide) rfl

/-- Counterexample for C6 as stated: a supported context whose cache already
holds the descriptor is a context in which sampler objects are supported, yet
two identical calls perform zero native allocation calls (both are cache
hits), not exactly one. -/
theorem get_sampler_twice_counterexample :
    (versionGe ctxt6.version ⟨Api.gl, 3, 2⟩ ||
      ctxt6.extensions.gl_arb_sampler_objects) = true ∧
    get_sampler_twice 0 ctxt6 [(behavior0, ⟨5, false⟩)] behavior0 =
      some (Except.ok 5, Except.ok 5, []) ∧
    twiceAllocCount (get_sampler_twice 0 ctxt6 [(behavior0, ⟨5, false⟩)] behavior0) = 0 := by
  refine ⟨by decide, ?_, ?_⟩ <;> rfl

/- ---------------------------------------------------------------- -/
/- C7: the anisotropy parameter of a new sampler                     -/
/- ---------------------------------------------------------------- -/

/-- C7: when a new sampler is created (on a context supporting samplers), the
anisotropy parameter is applied exactly when the capability set reports a
maximum, and the applied value is the requested anisotropy clamped to that
maximum; when no maximum is reported, no anisotropy parameter appears in the
trace and creation still succeeds. -/
theorem sampler_new_anisotropy (nextId : Nat) (ctxt : CommandContext)
    (behavior : SamplerBehavior)
    (hsupp : (versionGe ctxt.version ⟨Api.gl, 3, 2⟩ ||
      ctxt.extensions.gl_arb_sampler_objects) = true) :
    ∃ obj calls, SamplerObject.new nextId ctxt behavior = some (obj, calls) ∧
      (∀ m : ℚ, ctxt.capabilities.max_texture_max_anisotropy = some m →
        calls.filter isAnisoCall =
          [GlCall.samplerParameterf TEXTURE_MAX_ANISOTROPY_EXT
            (min (behavior.max_anisotropy : ℚ) m)]) ∧
      (ctxt.capabilities.max_texture_max_anisotropy = none →
        calls.filter isAnisoCall = []) := by
  refine ⟨{ id := nextId, destroyed := false },
    samplerBaseCalls behavior ++ samplerAnisoCalls ctxt behavior, ?_, ?_, ?_⟩
  · simp [SamplerObject.new, hsupp]
  · intro m hm
    have hval : (if (behavior.max_anisotropy : ℚ) > m then m
        else (behavior.max_anisotropy : ℚ)) = min (behavior.max_anisotropy : ℚ) m := by
      rcases le_or_lt (behavior.max_anisotropy : ℚ) m with h | h
      · rw [if_neg (not_lt.mpr h), min_eq_left h]
      · rw [if_pos h, min_eq_right h.le]
    simp [List.filter_append, filter_aniso_base, samplerAnisoCalls, hm, isAnisoCall, hval]
  · intro hm
    simp [List.filter_append, filter_aniso_base, samplerAnisoCalls, hm]

/-- Witness for C7 at the concrete context reporting maximum anisotropy 4 with
requested anisotropy 8: the applied value is 4. -/
theorem sampler_new_anisotropy_witness :
    ∃ obj calls, SamplerObject.new 0 ctxt7 behavior8 = some (obj, calls) ∧
      calls.filter isAnisoCall =
        [GlCall.samplerParameterf TEXTURE_MAX_ANISOTROPY_EXT 4] := by
  obtain ⟨obj, calls, hnew, hsome, hnone⟩ :=
    sampler_new_anisotropy 0 ctxt7 behavior8 (by decide)
  refine ⟨obj, calls, hnew, ?_⟩
  have h4 := hsome 4 rfl
  have hmin : min ((behavior8.max_anisotropy : Nat) : ℚ) 4 = 4 := by
    norm_num [behavior8]
  rw [h4, hmin]

/- ---------------------------------------------------------------- -/
/- Concrete contexts for the teardown claims                         -/
/- ---------------------------------------------------------------- -/

/-- A third distinct descriptor (clamp-to-edge wrap, linear filters). -/
def behaviorLinear : SamplerBehavior :=
  { wrap_function := (0x812F, 0x812F, 0x812F),
    minify_filter := 0x2601,
    magnify_filter := 0x2601,
    max_anisotropy := 1 }

/-- A context holding three cached sampler resources with debug output
mirrored as enabled, on a version whose core tier supports debug output. -/
def cDrop : Context :=
  { version := ⟨Api.gl, 4, 5⟩, extensions := noExtensions,
    capabilities := { max_texture_max_anisotropy := none },
    state := { enabled_debug_output := some true,
               enabled_debug_output_synchronous := true },
    backend := 0, backend_is_current := true, check_current_context := true,
    samplers := [(behavior0, ⟨1, false⟩), (behavior8, ⟨2, false⟩),
                 (behaviorLinear, ⟨3, false⟩)] }

/-- A context whose mirrored debug-output state was never set (the default). -/
def cNone : Context :=
  { version := ⟨Api.gl, 4, 5⟩, extensions := noExtensions,
    capabilities := { max_texture_max_anisotropy := none },
    state := GLState.default,
    backend := 0, backend_is_current := true, check_current_context := false,
    samplers := [] }

/-- A context whose mirrored debug-output state is explicitly disabled. -/
def cSomeFalse : Context :=
  { version := ⟨Api.gl, 4, 5⟩, extensions := noExtensions,
    capabilities := { max_texture_max_anisotropy := none },
    state := { enabled_debug_output := some false,
               enabled_debug_output_synchronous := true },
    backend := 0, backend_is_current := true, check_current_context := false,
    samplers := [] }

theorem drop_filter_delete_length (c : Context) :
    ((Context.drop c).1.filter isDeleteSamplers).length = c.samplers.length := by
  unfold Context.drop
  cases hb : (c.check_current_context && !c.backend_is_current) <;>
    cases hd : (c.state.enabled_debug_output != some false) <;>
      simp [hb, hd, List.filter_append, filter_delete_destroys,
        filter_delete_debugDisable, isDeleteSamplers]

/- ---------------------------------------------------------------- -/
/- C1: ordered teardown                                              -/
/- ---------------------------------------------------------------- -/

/-- C1: when the mirrored state shows debug output enabled, teardown performs,
in this relative order: the (conditional) rebind, the framebuffer-container
cleanup, the vertex-attribute-system cleanup, the drain of the sampler cache
destroying every entry exactly once (one deletion call per cached entry), and
only then the debug-bridge uninstall — a single tier-matched disable call
(when a tier is available) followed by the pipeline finish — recording debug
output as disabled. -/
theorem context_drop_teardown_order (c : Context)
    (hdbg : c.state.enabled_debug_output = some true) :
    ∃ d : List DropEvent,
      (Context.drop c).1 =
        (if c.check_current_context && !c.backend_is_current then
          [DropEvent.makeCurrent] else []) ++
        [DropEvent.fboCleanup, DropEvent.vaoCleanup] ++
        (c.samplers.map fun p => DropEvent.glCall (GlCall.deleteSamplers p.2.id)) ++
        d ++ [DropEvent.glCall GlCall.finish] ∧
      (∀ e ∈ d, isDisableDebug e = true) ∧
      (debugTierAvailable c = true → d.length = 1) ∧
      ((Context.drop c).1.filter isDeleteSamplers).length = c.samplers.length ∧
      (Context.drop c).2.enabled_debug_output = some false := by
  refine ⟨debugDisableCalls c, ?_, ?_, ?_, drop_filter_delete_length c, ?_⟩
  · unfold Context.drop
    simp [hdbg, SamplerObject.destroy]
  · intro e he
    unfold debugDisableCalls at he
    split at he
    · simp at he
      subst he
      rfl
    · split at he
      · simp at he
        subst he
        rfl
      · simp at he
  · intro ht
    unfold debugTierAvailable at ht
    unfold debugDisableCalls
    split
    · rfl
    · split
      · rfl
      · simp_all
  · unfold Context.drop
    simp [hdbg]

/-- Witness for C1 at the concrete context `cDrop` (three cached samplers,
debug output enabled, core debug tier available). -/
theorem context_drop_teardown_order_witness :
    ∃ d : List DropEvent,
      (Context.drop cDrop).1 =
        (if cDrop.check_current_context && !cDrop.backend_is_current then
          [DropEvent.makeCurrent] else []) ++
        [DropEvent.fboCleanup, DropEvent.vaoCleanup] ++
        (cDrop.samplers.map fun p => DropEvent.glCall (GlCall.deleteSamplers p.2.id)) ++
        d ++ [DropEvent.glCall GlCall.finish] ∧
      (∀ e ∈ d, isDisableDebug e = true) ∧
      d.length = 1 ∧
      ((Context.drop cDrop).1.filter isDeleteSamplers).length = cDrop.samplers.length ∧
      (Context.drop cDrop).2.enabled_debug_output = some false := by
  obtain ⟨d, h1, h2, h3, h4, h5⟩ := context_drop_teardown_order cDrop rfl
  exact ⟨d, h1, h2, h3 (by decide), h4, h5⟩

/- ---------------------------------------------------------------- -/
/- C2 (amended): the guard of the debug-bridge uninstall             -/
/- ---------------------------------------------------------------- -/

/-- C2 (amended): at teardown, the debug-bridge uninstall block runs exactly
when the mirrored state is not `Some(false)`: when the state is `Some(false)`
no disable call and no pipeline finish is issued and the state is untouched;
for every other state — including the never-set default `None` — exactly one
pipeline finish is issued and the state is recorded as disabled. -/
theorem context_drop_debug_uninstall_guard (c : Context) :
    (c.state.enabled_debug_output = some false →
      (Context.drop c).1.filter isFinish = [] ∧
      (Context.drop c).1.filter isDisableDebug = [] ∧
      (Context.drop c).2 = c.state) ∧
    (c.state.enabled_debug_output ≠ some false →
      (Context.drop c).1.filter isFinish = [DropEvent.glCall GlCall.finish] ∧
      (Context.drop c).2.enabled_debug_output = some false) := by
  constructor
  · intro h
    have hcond : (c.state.enabled_debug_output != some false) = false := by
      simp [h]
    unfold Context.drop
    cases hb : (c.check_current_context && !c.backend_is_current) <;>
      simp [hb, hcond, List.filter_append, filter_finish_destroys,
        filter_disable_destroys, isFinish, isDisableDebug]
  · intro h
    have hcond : (c.state.enabled_debug_output != some false) = true := by
      simpa [bne_iff_ne] using h
    unfold Context.drop
    cases hb : (c.check_current_context && !c.backend_is_current) <;>
      simp [hb, hcond, List.filter_append, filter_finish_destroys,
        filter_disable_destroys, filter_finish_debugDisable, isFinish]

/-- Witness for C2 (amended): at `cSomeFalse` the uninstall is skipped; at the
never-set default `cNone` it runs and issues the finish. -/
theorem context_drop_debug_uninstall_guard_witness :
    ((Context.drop cSomeFalse).1.filter isFinish = [] ∧
      (Context.drop cSomeFalse).1.filter isDisableDebug = [] ∧
      (Context.drop cSomeFalse).2 = cSomeFalse.state) ∧
    ((Context.drop cNone).1.filter isFinish = [DropEvent.glCall GlCall.finish] ∧
      (Context.drop cNone).2.enabled_debug_output = some false) :=
  ⟨(context_drop_debug_uninstall_guard cSomeFalse).1 rfl,
   (context_drop_debug_uninstall_guard cNone).2 (by decide)⟩

/-- Counterexample for C2 as stated: in the context `cNone` the mirrored state
is the never-set default `None` — debug output is not currently enabled — yet
teardown issues the disable call and the pipeline finish. -/
theorem context_drop_debug_uninstall_counterexample :
    cNone.state.enabled_debug_output = none ∧
    (Context.drop cNone).1.filter isFinish = [DropEvent.glCall GlCall.finish] ∧
    (Context.drop cNone).1.filter isDisableDebug =
      [DropEvent.glCall (GlCall.disable DEBUG_OUTPUT)] := by
  refine ⟨rfl, ?_, ?_⟩ <;> rfl
